import Mathlib

/-!
Verification development for the bid-PDF document-processing pipeline.

The Python source is shallowly embedded:
- JSON-like extraction data (`dict`/`list`/`str`/number/`None` values) becomes
  the inductive `Value`; Python dicts become insertion-ordered association
  lists over `String` keys (`alookup` models `dict.get`, `ainsert` models
  `dict[k] = v`, which overwrites in place or appends a new key at the end).
- External effects (PDF text extraction, the OCR subprocess, the LLM call,
  file fingerprinting) are modelled as explicit inputs describing the result
  of the effect; the repository's own control flow around them is embedded
  faithfully. Python exceptions become `Except String`.
- Float-valued confidence scores are modelled over `ℚ` (the code only
  compares and divides small non-negative counts); file mtimes are modelled
  as `Int` values, since the code only ever compares them for equality.
-/

/-- A JSON-like Python value as handled by the extractors and the pipeline:
`None`, strings, numbers, booleans, lists and (insertion-ordered) dicts. -/
inductive Value where
  | vnone : Value
  | vstr : String → Value
  | vnum : Int → Value
  | vbool : Bool → Value
  | vlist : List Value → Value
  | vdict : List (String × Value) → Value

/-- Python dicts with string keys, as insertion-ordered association lists. -/
abbrev Dict := List (String × Value)

/-- `d.get(key)`: value of the first (unique) entry with the given key. -/
def alookup {α : Type} : List (String × α) → String → Option α
  | [], _ => Option.none
  | (k, v) :: rest, key => if k = key then some v else alookup rest key

/-- `d[key] = v`: overwrite the entry for `key` in place, else append it. -/
def ainsert {α : Type} : List (String × α) → String → α → List (String × α)
  | [], key, v => [(key, v)]
  | (k, w) :: rest, key, v =>
      if k = key then (key, v) :: rest else (k, w) :: ainsert rest key v

/-- Python truthiness of a `Value` (`bool(v)`). -/
def Value.truthy : Value → Bool
  | .vnone => false
  | .vstr s => !(s == "")
  | .vnum n => !(n == 0)
  | .vbool b => b
  | .vlist l => !l.isEmpty
  | .vdict d => !d.isEmpty

/-- `bool(data.get(key))`: truthiness of a dict entry, `False` when absent. -/
def dict_get_truthy (d : Dict) (k : String) : Bool :=
  match alookup d k with
  | some v => v.truthy
  | Option.none => false

/-! ## Field mapping (src/transformers/file_mapping.py) -/

/-- A nested list-field schema (`list_fields` entry): `fields` and `aliases`. -/
structure ItemMapping where
  fields : List String
  aliases : List (String × String)

/-- A value stored in a mapping-schema dict: the schemas are JSON objects
whose entries are strings (or null) or the typed `fields` / `aliases` /
`list_fields` collections. -/
inductive MVal where
  | mstr : String → MVal
  | mnone : MVal
  | mfields : List String → MVal
  | maliases : List (String × String) → MVal
  | mlistfields : List (String × ItemMapping) → MVal

/-- A mapping schema is itself a Python dict (association list); its
truthiness (`not mapping`) is list emptiness. -/
abbrev Mapping := List (String × MVal)

/-- `mapping.get("fields", [])` for a well-formed schema. -/
def mapping_fields (m : Mapping) : List String :=
  match alookup m "fields" with
  | some (.mfields fs) => fs
  | _ => []

/-- `mapping.get("aliases", {})` for a well-formed schema. -/
def mapping_aliases (m : Mapping) : List (String × String) :=
  match alookup m "aliases" with
  | some (.maliases al) => al
  | _ => []

/-- `mapping.get("list_fields", {})` for a well-formed schema. -/
def mapping_list_fields (m : Mapping) : List (String × ItemMapping) :=
  match alookup m "list_fields" with
  | some (.mlistfields lf) => lf
  | _ => []

/-- `mapping.get(key)` when the stored value is a string (else `None`). -/
def mapping_get_str (m : Mapping) (k : String) : Option String :=
  match alookup m k with
  | some (.mstr s) => some s
  | _ => Option.none

/-- `DEFAULT_FIELD_MAPPINGS` from src/transformers/file_mapping.py. -/
def DEFAULT_FIELD_MAPPINGS : List (String × Mapping) :=
  [("invitation_to_bid",
     [("mapping_name", .mstr "invitation_to_bid_default"),
      ("fields", .mfields
        ["contract_number", "wbs_element", "counties", "description",
         "date_available", "completion_date", "mbe_goal", "wbe_goal",
         "combined_goal", "bid_opening_date"]),
      ("aliases", .maliases [])]),
   ("award_letter",
     [("mapping_name", .mstr "award_letter_default"),
      ("fields", .mfields
        ["contract_number", "awarded_to", "awarded_amount", "award_date",
         "wbs_element", "counties", "description"]),
      ("aliases", .maliases [])]),
   ("bid_tabs",
     [("mapping_name", .mstr "bid_tabs_default"),
      ("fields", .mfields ["contract_number", "bidders", "bid_items"]),
      ("aliases", .maliases []),
      ("list_fields", .mlistfields
        [("bidders",
           { fields := ["bidder_name", "bidder_location", "total_bid_amount",
                        "bid_rank", "percentage_diff", "is_winner"],
             aliases := [] }),
         ("bid_items",
           { fields := ["item_number", "item_code", "description", "quantity",
                        "unit", "unit_price", "total_price", "bidder_name"],
             aliases := [] })])]),
   ("item_c_report",
     [("mapping_name", .mstr "item_c_report_default"),
      ("fields", .mfields
        ["contract_number", "proposal_length", "type_of_work", "location",
         "estimated_cost", "date_available", "completion_date", "bidders"]),
      ("aliases", .maliases []),
      ("list_fields", .mlistfields
        [("bidders",
           { fields := ["bidder_name", "bidder_location", "total_bid_amount",
                        "percentage_diff", "bid_rank", "is_winner"],
             aliases := [] })])])]

/-- `MappingResolver.resolve`: look up the schema for the document type
(defaulting to the empty dict), then set the four provenance keys on a copy.
`mapping_path` is always set by the constructor; `mapping_path_exists`
models `self.mapping_path.exists()`. -/
def MappingResolver.resolve (mappings : List (String × Mapping))
    (mapping_path_exists : Bool) (mapping_path : String)
    (document_type file_name : String) : Mapping :=
  let mapping := (alookup mappings document_type).getD []
  let mapping_source := if mapping_path_exists then "external" else "default"
  ainsert (ainsert (ainsert (ainsert mapping
    "mapping_source" (MVal.mstr mapping_source))
    "mapping_file" (MVal.mstr mapping_path))
    "document_type" (MVal.mstr document_type))
    "file_name" (MVal.mstr file_name)

/-- The `for field in fields` loop of `apply_mapping`: copy each canonical
field present in the data into the accumulator. -/
def map_fields (fields : List String) (data : Dict) (mapped : Dict) : Dict :=
  match fields with
  | [] => mapped
  | f :: rest =>
    match alookup data f with
    | some v => map_fields rest data (ainsert mapped f v)
    | Option.none => map_fields rest data mapped

/-- The `for alias, target in aliases.items()` loop of `apply_mapping`:
copy the aliased source value only if the target is a known field, the alias
is present, and the target is not already populated. -/
def apply_aliases (aliases : List (String × String)) (fields : List String)
    (data : Dict) (mapped : Dict) : Dict :=
  match aliases with
  | [] => mapped
  | (al, target) :: rest =>
    let mapped' :=
      if fields.contains target then
        match alookup data al, alookup mapped target with
        | some v, Option.none => ainsert mapped target v
        | _, _ => mapped
      else mapped
    apply_aliases rest fields data mapped'

/-- `_apply_item_mapping`: field copy then alias reconciliation on one
element of a nested list field. -/
def apply_item_mapping (item : Dict) (im : ItemMapping) : Dict :=
  apply_aliases im.aliases im.fields item (map_fields im.fields item [])

/-- The inner `for item in items` loop: skip non-dict elements, map the
rest. -/
def map_items (items : List Value) (im : ItemMapping) : List Value :=
  items.filterMap fun it =>
    match it with
    | Value.vdict d => some (Value.vdict (apply_item_mapping d im))
    | _ => Option.none

/-- The `for list_name, list_mapping in list_fields.items()` loop:
`data.get(list_name, [])` is mapped elementwise when it is a list (the
default `[]` when the key is absent is a list, and yields an empty mapped
list); non-list values are skipped. -/
def apply_list_fields (listFields : List (String × ItemMapping))
    (data : Dict) (mapped : Dict) : Dict :=
  match listFields with
  | [] => mapped
  | (name, im) :: rest =>
    let mapped' :=
      match (alookup data name).getD (Value.vlist []) with
      | Value.vlist items => ainsert mapped name (Value.vlist (map_items items im))
      | _ => mapped
    apply_list_fields rest data mapped'

/-- Mapping provenance metadata returned by `apply_mapping`. -/
structure MapMeta where
  applied : Bool
  mapping_name : Option String := Option.none
  mapping_source : Option String := Option.none
  mapping_file : Option String := Option.none
  document_type : Option String := Option.none
  expected_fields : List String := []

/-- The mapped dict built by `apply_mapping` on the dict/non-empty-mapping
path: canonical fields, then aliases, then list fields. -/
def apply_mapping_dict (d : Dict) (mapping : Mapping) : Dict :=
  apply_list_fields (mapping_list_fields mapping) d
    (apply_aliases (mapping_aliases mapping) (mapping_fields mapping) d
      (map_fields (mapping_fields mapping) d []))

/-- `apply_mapping(data, mapping)`: pass-through with `applied = False` when
the mapping dict is falsy or the data is not a dict; otherwise normalize and
return provenance with `applied = True`. -/
def apply_mapping (data : Value) (mapping : Mapping) : Value × MapMeta :=
  match data with
  | Value.vdict d =>
    if mapping.isEmpty then (data, { applied := false })
    else
      (Value.vdict (apply_mapping_dict d mapping),
       { applied := true,
         mapping_name := mapping_get_str mapping "mapping_name",
         mapping_source := mapping_get_str mapping "mapping_source",
         mapping_file := mapping_get_str mapping "mapping_file",
         document_type := mapping_get_str mapping "document_type",
         expected_fields := mapping_fields mapping })
  | _ => (data, { applied := false })

/-! ## Classifier (src/pipeline/classifier.py) -/

/-- The closed `DocumentType` enumeration. -/
inductive DocumentType where
  | invitation_to_bid
  | bid_tabs
  | award_letter
  | item_c_report
  | bid_summary
  | bids_as_read
  | unknown
deriving DecidableEq

/-- `DocumentType.value` strings. -/
def DocumentType.value : DocumentType → String
  | .invitation_to_bid => "invitation_to_bid"
  | .bid_tabs => "bid_tabs"
  | .award_letter => "award_letter"
  | .item_c_report => "item_c_report"
  | .bid_summary => "bid_summary"
  | .bids_as_read => "bids_as_read"
  | .unknown => "unknown"

/-- Whether the character list starts with the pattern. -/
def chars_start_with : List Char → List Char → Bool
  | _, [] => true
  | [], _ :: _ => false
  | c :: cs, p :: ps => (c = p) && chars_start_with cs ps

/-- Whether the pattern occurs anywhere in the character list. -/
def chars_contain : List Char → List Char → Bool
  | [], pat => pat.isEmpty
  | c :: rest, pat => chars_start_with (c :: rest) pat || chars_contain rest pat

/-- Python `pat in s` (substring test). -/
def contains_sub (s pat : String) : Bool :=
  chars_contain s.toList pat.toList

/-- Python `s.lower()`. -/
def str_lower (s : String) : String :=
  String.mk (s.toList.map Char.toLower)

/-- Python `s.strip()`: drop whitespace from both ends. -/
def str_strip (s : String) : String :=
  String.mk (((s.toList.dropWhile Char.isWhitespace).reverse.dropWhile
    Char.isWhitespace).reverse)

/-- `DocumentClassifier._classify_by_filename` over the lowercased name. -/
def DocumentClassifier.classify_by_filename (name : String) : DocumentType :=
  let filename := str_lower name
  if contains_sub filename "invitation" && contains_sub filename "bid" then
    .invitation_to_bid
  else if contains_sub filename "bid tab" || contains_sub filename "bid_tab"
      || contains_sub filename "bidtab" then
    .bid_tabs
  else if contains_sub filename "award" && contains_sub filename "letter" then
    .award_letter
  else if contains_sub filename "item c" || contains_sub filename "item_c"
      || contains_sub filename "itemc" then
    .item_c_report
  else if contains_sub filename "bid summary" || contains_sub filename "bidsummary" then
    .bid_summary
  else if contains_sub filename "bids as read" || contains_sub filename "bids_as_read" then
    .bids_as_read
  else .unknown

/-- `DocumentClassifier._classify_by_content`: keyword heuristics over the
first page's extracted text; `Option.none` models a read that raised or a
PDF with no pages (both yield `unknown`). -/
def DocumentClassifier.classify_by_content (first_page_text : Option String) : DocumentType :=
  match first_page_text with
  | Option.none => .unknown
  | some raw =>
    let text := str_lower raw
    if contains_sub text "notice to prospective bidders"
        || contains_sub text "invitation to bid" then
      .invitation_to_bid
    else if contains_sub text "notification of award"
        || contains_sub text "pleased to inform you that" then
      .award_letter
    else if contains_sub text "item c"
        && (contains_sub text "$ totals" || contains_sub text "% diff") then
      .item_c_report
    else if contains_sub text "roadway items"
        && (contains_sub text "bidder" || contains_sub text "contractor") then
      .bid_tabs
    else if contains_sub text "bids as read" then
      .bids_as_read
    else .unknown

/-- `DocumentClassifier.classify`: filename first, content as fallback. -/
def DocumentClassifier.classify (file_name : String)
    (first_page_text : Option String) : DocumentType :=
  let t := DocumentClassifier.classify_by_filename file_name
  if t ≠ DocumentType.unknown then t
  else DocumentClassifier.classify_by_content first_page_text

/-- `DocumentClassifier.get_extractor_class`: whether the registry maps the
type to an extractor class (every type except `unknown` has one). -/
def DocumentClassifier.get_extractor_class (t : DocumentType) : Bool :=
  match t with
  | .unknown => false
  | _ => true

/-! ## Base extractor (src/extractors/base_extractor.py) -/

/-- A value counted as filled by `calculate_confidence_score`:
`v is not None and v != ""` (any non-string value differs from `""`). -/
def conf_filled : Value → Bool
  | .vnone => false
  | .vstr s => !(s == "")
  | _ => true

/-- `BaseExtractor.calculate_confidence_score`: fraction of filled fields,
`0.0` for falsy data. -/
def BaseExtractor.calculate_confidence_score (data : Option Dict) : ℚ :=
  match data with
  | Option.none => 0
  | some d =>
    if d.isEmpty then 0
    else ((d.filter fun p => conf_filled p.2).length : ℚ) / (d.length : ℚ)

/-- What `extractor.extract()` did: returned data or raised. -/
inductive ExtractBehavior where
  | ok : Value → ExtractBehavior
  | exn : String → ExtractBehavior

/-- `run_extraction`'s result shape: status, data, error and the text
statistics that `_extract_text_stats` put into the metadata. -/
structure RawResult where
  status : String
  data : Value
  error : Option String
  text_length : Nat
  text_pages_with_content : Nat

/-- `BaseExtractor.run_extraction`: success wraps the extracted data,
any exception from `extract()` is caught into a failed result. -/
def BaseExtractor.run_extraction (b : ExtractBehavior)
    (text_length text_pages_with_content : Nat) : RawResult :=
  match b with
  | .ok d =>
    { status := "success", data := d, error := Option.none,
      text_length := text_length,
      text_pages_with_content := text_pages_with_content }
  | .exn e =>
    { status := "failed", data := Value.vnone, error := some e,
      text_length := text_length,
      text_pages_with_content := text_pages_with_content }

/-- One invocation of an extractor on one file: whether the extractor
constructor raised (`FileNotFoundError` for a missing file), what
`extract()` did, and the file's text statistics. -/
structure ExtractorCall where
  ctor_error : Option String
  behavior : ExtractBehavior
  text_length : Nat
  text_pages_with_content : Nat

/-! ## OCR processor (src/transformers/ocr.py) -/

/-- OCR metadata recorded by `OCRProcessor.run` (durations are not
modelled). -/
structure OcrMeta where
  ocr_attempted : Bool
  ocr_enabled : Bool
  ocr_applied : Bool := false
  ocr_method : Option String := Option.none
  ocr_error : Option String := Option.none

/-- What the `ocrmypdf` subprocess did, when it was actually started. -/
inductive OcrExec where
  | ok : String → OcrExec
  | timeoutExpired : OcrExec
  | exn : String → OcrExec

/-- `OCRProcessor.run`: disabled and unavailable short-circuits, otherwise
the subprocess outcome; every failure is caught into metadata, never
raised. -/
def OCRProcessor.run (enabled available : Bool) (exec : OcrExec) :
    Option String × OcrMeta :=
  if !enabled then
    (Option.none, { ocr_attempted := false, ocr_enabled := false })
  else if !available then
    (Option.none,
     { ocr_attempted := true, ocr_enabled := true, ocr_applied := false,
       ocr_method := some "ocrmypdf",
       ocr_error := some "ocrmypdf_not_available" })
  else
    match exec with
    | .ok out_path =>
      (some out_path,
       { ocr_attempted := true, ocr_enabled := true, ocr_applied := true,
         ocr_method := some "ocrmypdf" })
    | .timeoutExpired =>
      (Option.none,
       { ocr_attempted := true, ocr_enabled := true, ocr_applied := false,
         ocr_method := some "ocrmypdf", ocr_error := some "timeout" })
    | .exn e =>
      (Option.none,
       { ocr_attempted := true, ocr_enabled := true, ocr_applied := false,
         ocr_method := some "ocrmypdf", ocr_error := some e })

/-! ## Pipeline orchestrator (src/pipeline/orchestrator.py) -/

/-- A file fingerprint: sha256 hex digest, size and modification time
(mtime compared only for equality, modelled at integer resolution). -/
structure Fingerprint where
  file_hash : String
  file_size_bytes : Nat
  file_mtime : Int
deriving DecidableEq

/-- One per-document outcome dictionary as assembled by the orchestrator;
the metadata bag's keys are flattened into optional fields. -/
structure Outcome where
  file_path : String := ""
  document_type : String := "unknown"
  status : String := ""
  error : Option String := Option.none
  data : Value := Value.vnone
  mapping : Option MapMeta := Option.none
  text_length : Nat := 0
  text_pages_with_content : Nat := 0
  needs_ocr : Option Bool := Option.none
  needs_ocr_reasons : List String := []
  partial_reasons : List String := []
  contract_number_source : Option String := Option.none
  ocr : Option OcrMeta := Option.none
  ocr_source_file : Option String := Option.none
  skip_reason : Option String := Option.none
  fingerprint_meta : Option Fingerprint := Option.none

/-- Resolver configuration shared by one pipeline run. -/
structure PipelineCfg where
  mappings : List (String × Mapping)
  mapping_path : String
  mapping_path_exists : Bool

/-- Everything outside the orchestrator's own control flow that determines
how one file is processed: its name/path, the first-page text seen by the
content classifier, the initial extraction, the OCR tool's behaviour, the
re-extraction on the OCR output, and the file's fingerprint. -/
structure FileWorld where
  file_name : String
  file_path : String
  first_page_text : Option String
  call1 : ExtractorCall
  ocr_enabled : Bool
  ocr_available : Bool
  ocr_exec : OcrExec
  call2 : ExtractorCall
  fingerprint : Fingerprint

/-- A value counted as filled by `_assess_needs_ocr`: not `None`, not an
empty list/dict, not a whitespace-only string. -/
def ocr_filled : Value → Bool
  | .vnone => false
  | .vlist [] => false
  | .vdict [] => false
  | .vstr s => !(str_strip s == "")
  | _ => true

/-- `data.get(key) == []` (equality with the empty list holds only for an
empty list value). -/
def get_eq_empty_list (d : Dict) (k : String) : Bool :=
  match alookup d k with
  | some (Value.vlist []) => true
  | _ => false

/-- `Pipeline._assess_needs_ocr`: the no-text signal from the metadata text
statistics, then the empty-data / low-field-coverage signals from the data
dict (`result.get("data") or {}` turns falsy data into the empty dict). -/
def Pipeline.assess_needs_ocr (r : Outcome) : Bool × List String :=
  let reasons1 : List String :=
    if r.text_pages_with_content = 0 ∨ r.text_length < 50 then
      ["no_text_extracted"]
    else []
  let dataV := if r.data.truthy then r.data else Value.vdict []
  let reasons2 :=
    match dataV with
    | Value.vdict d =>
      let total_fields := d.length
      let filled_fields := (d.filter fun p => ocr_filled p.2).length
      if total_fields = 0 ∨ filled_fields = 0 then
        reasons1 ++ ["empty_data"]
      else if filled_fields ≤ 1 ∧ get_eq_empty_list d "bidders"
          ∧ get_eq_empty_list d "bid_items" then
        reasons1 ++ ["low_field_coverage"]
      else reasons1
    | _ => reasons1
  (!reasons2.isEmpty, reasons2)

/-- `Pipeline._assess_partial_reasons`: a dict data value without a truthy
contract number is flagged. -/
def Pipeline.assess_partial_reasons (r : Outcome) : List String :=
  match r.data with
  | Value.vdict d =>
    if dict_get_truthy d "contract_number" then [] else ["missing_contract_number"]
  | _ => []

/-- Python `\w` on the ASCII filenames handled here. -/
def is_word_char (c : Char) : Bool :=
  c.isAlphanum || c = '_'

/-- Try the pattern `(DA\d{5})` (case-insensitive) at the current position;
the matched text is returned uppercased (`match.group(1).upper()`). -/
def match_da_at : List Char → Option String
  | d :: a :: c1 :: c2 :: c3 :: c4 :: c5 :: _ =>
    if (d = 'D' ∨ d = 'd') ∧ (a = 'A' ∨ a = 'a')
        ∧ (c1.isDigit ∧ c2.isDigit ∧ c3.isDigit ∧ c4.isDigit ∧ c5.isDigit) then
      some (String.mk [d.toUpper, a.toUpper, c1, c2, c3, c4, c5])
    else Option.none
  | _ => Option.none

/-- `re.search` for `(DA\d{5})`: leftmost match. -/
def search_da : List Char → Option String
  | [] => Option.none
  | c :: rest =>
    match match_da_at (c :: rest) with
    | some s => some s
    | Option.none => search_da rest

/-- Try the pattern `\b(\d{8})\b` at the current position, given the
previous character (word-boundary checks on both sides). -/
def match_eight_at (prev : Option Char) : List Char → Option String
  | c1 :: c2 :: c3 :: c4 :: c5 :: c6 :: c7 :: c8 :: rest =>
    if (c1.isDigit ∧ c2.isDigit ∧ c3.isDigit ∧ c4.isDigit
        ∧ c5.isDigit ∧ c6.isDigit ∧ c7.isDigit ∧ c8.isDigit)
        ∧ (match prev with
           | some p => !(is_word_char p)
           | Option.none => true) = true
        ∧ (match rest with
           | r :: _ => !(is_word_char r)
           | [] => true) = true then
      some (String.mk [c1, c2, c3, c4, c5, c6, c7, c8])
    else Option.none
  | _ => Option.none

/-- `re.search` for `\b(\d{8})\b`: leftmost match. -/
def search_eight (prev : Option Char) : List Char → Option String
  | [] => Option.none
  | c :: rest =>
    match match_eight_at prev (c :: rest) with
    | some s => some s
    | Option.none => search_eight (some c) rest

/-- `Pipeline._infer_contract_number_from_filename`: the `(DA\d{5})`
pattern first, then the standalone eight-digit pattern. -/
def Pipeline.infer_contract_number_from_filename (filename : String) : Option String :=
  match search_da filename.toList with
  | some s => some s
  | Option.none => search_eight Option.none filename.toList

/-- `Pipeline._normalize_contract_number`: fill a missing/falsy contract
number from the filename and record the provenance. -/
def Pipeline.normalize_contract_number (r : Outcome) (file_name : String) : Outcome :=
  match r.data with
  | Value.vdict d =>
    if dict_get_truthy d "contract_number" then r
    else
      match Pipeline.infer_contract_number_from_filename file_name with
      | some c =>
        { r with data := Value.vdict (ainsert d "contract_number" (Value.vstr c)),
                 contract_number_source := some "filename" }
      | Option.none => r
  | _ => r

/-- `Pipeline._run_extraction`: construct the extractor (which raises for a
missing file), run it, and on success with truthy data apply the resolved
mapping; tag document type and file path. -/
def Pipeline.run_extraction_aux (cfg : PipelineCfg) (call : ExtractorCall)
    (doc_type : DocumentType) (file_name result_file_path : String) :
    Except String Outcome :=
  match call.ctor_error with
  | some e => Except.error e
  | Option.none =>
    let raw := BaseExtractor.run_extraction call.behavior
      call.text_length call.text_pages_with_content
    if raw.status = "success" ∧ raw.data.truthy = true then
      let mapping := MappingResolver.resolve cfg.mappings
        cfg.mapping_path_exists cfg.mapping_path doc_type.value file_name
      let mm := apply_mapping raw.data mapping
      Except.ok
        { file_path := result_file_path, document_type := doc_type.value,
          status := raw.status, error := raw.error, data := mm.1,
          mapping := some mm.2, text_length := raw.text_length,
          text_pages_with_content := raw.text_pages_with_content }
    else
      Except.ok
        { file_path := result_file_path, document_type := doc_type.value,
          status := raw.status, error := raw.error, data := raw.data,
          text_length := raw.text_length,
          text_pages_with_content := raw.text_pages_with_content }

/-- `Pipeline._attempt_ocr_and_reextract`: run OCR once; without an output
file keep the initial result (plus OCR metadata); with one, re-run the
extraction on it (exceptions propagate after the temp file cleanup) and
merge OCR provenance. -/
def Pipeline.attempt_ocr_and_reextract (cfg : PipelineCfg) (w : FileWorld)
    (doc_type : DocumentType) (initial_result : Outcome) :
    Except String Outcome :=
  let run := OCRProcessor.run w.ocr_enabled w.ocr_available w.ocr_exec
  match run.1 with
  | Option.none => Except.ok { initial_result with ocr := some run.2 }
  | some p =>
    match Pipeline.run_extraction_aux cfg w.call2 doc_type w.file_name w.file_path with
    | Except.error e => Except.error e
    | Except.ok r => Except.ok { r with ocr := some run.2, ocr_source_file := some p }

/-- The failed-outcome dictionary built by `process_file`'s `except` block. -/
def Pipeline.failed_outcome (w : FileWorld) (e : String) : Outcome :=
  { file_path := w.file_path, document_type := "unknown", status := "failed",
    error := some e, data := Value.vnone,
    fingerprint_meta := some w.fingerprint }

/-- The status-finalisation tail of `process_file` (lines 184-216): record
the needs-OCR assessment, downgrade success to partial when OCR is still
needed, record partial reasons (downgrading again), and attach the
fingerprint metadata. -/
def Pipeline.finalize_status (r0 : Outcome) (needs : Bool)
    (reasons : List String) (fp : Fingerprint) : Outcome :=
  let r1 := { r0 with needs_ocr := some needs, needs_ocr_reasons := reasons }
  let r2 := if needs = true ∧ r1.status = "success" then
      { r1 with status := "partial" }
    else r1
  let pr := Pipeline.assess_partial_reasons r2
  let r3 :=
    if pr ≠ [] then
      let r2' := { r2 with partial_reasons := pr }
      if r2'.status = "success" then { r2' with status := "partial" } else r2'
    else r2
  { r3 with fingerprint_meta := some fp }

/-- The body of `Pipeline.process_file` after the fingerprint is available:
classify, dispatch, extract + map, contract-number normalisation, the
needs-OCR pass with at most one OCR escalation, re-assessment, and status
finalisation; every exception inside the `try` is caught into a failed
outcome. The second component counts OCR tool invocations. -/
def Pipeline.process_file (cfg : PipelineCfg) (w : FileWorld) : Outcome × Nat :=
  let doc_type := DocumentClassifier.classify w.file_name w.first_page_text
  if DocumentClassifier.get_extractor_class doc_type = false then
    ({ file_path := w.file_path, document_type := doc_type.value,
       status := "skipped",
       error := some "No extractor available for this document type" }, 0)
  else
    match Pipeline.run_extraction_aux cfg w.call1 doc_type w.file_name w.file_path with
    | Except.error e => (Pipeline.failed_outcome w e, 0)
    | Except.ok r0 =>
      let r1 := Pipeline.normalize_contract_number r0 w.file_name
      let a1 := Pipeline.assess_needs_ocr r1
      if a1.1 = true then
        match Pipeline.attempt_ocr_and_reextract cfg w doc_type r1 with
        | Except.error e => (Pipeline.failed_outcome w e, 1)
        | Except.ok r2 =>
          let r3 := Pipeline.normalize_contract_number r2 w.file_name
          let a2 := Pipeline.assess_needs_ocr r3
          (Pipeline.finalize_status r3 a2.1 a2.2 w.fingerprint, 1)
      else
        (Pipeline.finalize_status r1 a1.1 a1.2 w.fingerprint, 0)

/-- `Pipeline.process_file` as called: `fingerprint = fingerprint or
self._compute_file_fingerprint(pdf_path)` runs before the `try` block, so a
fingerprinting failure (missing/unreadable file) propagates to the caller
instead of producing an outcome. -/
def Pipeline.process_file_entry (cfg : PipelineCfg) (w : FileWorld)
    (fingerprint_arg : Option Fingerprint)
    (compute_fingerprint : Except String Fingerprint) :
    Except String (Outcome × Nat) :=
  match fingerprint_arg with
  | some fp => Except.ok (Pipeline.process_file cfg { w with fingerprint := fp })
  | Option.none =>
    match compute_fingerprint with
    | Except.error e => Except.error e
    | Except.ok fp => Except.ok (Pipeline.process_file cfg { w with fingerprint := fp })

/-- `Pipeline._is_unchanged`: pure three-field equality against the cached
state entry for the path. -/
def Pipeline.is_unchanged (state : List (String × Fingerprint))
    (path : String) (fp : Fingerprint) : Bool :=
  match alookup state path with
  | Option.none => false
  | some cached =>
    decide (cached.file_hash = fp.file_hash
      ∧ cached.file_size_bytes = fp.file_size_bytes
      ∧ cached.file_mtime = fp.file_mtime)

/-- `Pipeline._build_skip_result`: the standardized skipped outcome for an
unchanged file (filename-only classification, reason "unchanged"). -/
def Pipeline.build_skip_result (w : FileWorld) : Outcome :=
  { file_path := w.file_path,
    document_type := (DocumentClassifier.classify_by_filename w.file_name).value,
    status := "skipped", error := some "unchanged",
    skip_reason := some "unchanged",
    fingerprint_meta := some w.fingerprint }

/-- The per-file loop of `Pipeline.process_directory` (fingerprints are the
ones `_compute_file_fingerprint` returned for each file this run): skip
unchanged files in incremental mode, otherwise process and — in incremental
mode, only for a success outcome — update the state entry for the path. -/
def Pipeline.process_directory (cfg : PipelineCfg) (incremental : Bool) :
    List FileWorld → List (String × Fingerprint) →
    List Outcome × List (String × Fingerprint)
  | [], state => ([], state)
  | w :: rest, state =>
    if incremental = true ∧ Pipeline.is_unchanged state w.file_path w.fingerprint = true then
      let skip_result := Pipeline.build_skip_result w
      let step := Pipeline.process_directory cfg incremental rest state
      (skip_result :: step.1, step.2)
    else
      let result := (Pipeline.process_file cfg w).1
      let state1 :=
        if incremental = true ∧ result.status = "success" then
          ainsert state w.file_path w.fingerprint
        else state
      let step := Pipeline.process_directory cfg incremental rest state1
      (result :: step.1, step.2)

/-- Documents of a run that were not skipped (the `successful` + `failed`
summary counts range over these). -/
def count_non_skipped (rs : List Outcome) : Nat :=
  (rs.filter fun r => !(r.status == "skipped")).length

/-! ## Hybrid confidence fallback (src/extractors/llm_extractor.py) -/

/-- A value stored in a result's metadata dict by the hybrid extractor. -/
inductive MetaVal where
  | mvnum : ℚ → MetaVal
  | mvstr : String → MetaVal
  | mvbool : Bool → MetaVal
deriving DecidableEq

/-- A `run_extraction` result as the hybrid extractor handles it: status,
data dict (or `None` on failure) and the metadata dict. -/
structure HResult where
  status : String
  data : Option Dict
  metadata : List (String × MetaVal)

/-- What the LLM fallback did: the `LLMExtractor` constructor or call chain
raised, or `run_extraction` returned a result (itself possibly failed). -/
inductive LLMCall where
  | raises : String → LLMCall
  | returns : HResult → LLMCall

/-- `HybridExtractor.extract`: accept the traditional result when it
succeeded with confidence at or above the threshold (recording
`confidence` and `method_used`); otherwise fall back to the LLM, recording
`method_used` and `traditional_confidence` on its result — and if the LLM
path raises, return the original traditional result with only
`llm_fallback_failed` recorded. `traditional_confidence` falls back to `0`
when the local `confidence` was never computed (traditional extraction
failed outright). -/
def HybridExtractor.extract (trad_result : HResult)
    (confidence_threshold : ℚ) (llm : LLMCall) : HResult :=
  if trad_result.status = "success"
      ∧ BaseExtractor.calculate_confidence_score trad_result.data ≥ confidence_threshold then
    let confidence := BaseExtractor.calculate_confidence_score trad_result.data
    let md1 := ainsert trad_result.metadata "confidence" (MetaVal.mvnum confidence)
    let md2 := ainsert md1 "method_used" (MetaVal.mvstr "traditional")
    { trad_result with metadata := md2 }
  else
    match llm with
    | .returns llm_result =>
      let traditional_confidence :=
        if trad_result.status = "success" then
          BaseExtractor.calculate_confidence_score trad_result.data
        else 0
      let md1 := ainsert llm_result.metadata "method_used" (MetaVal.mvstr "llm_fallback")
      let md2 := ainsert md1 "traditional_confidence" (MetaVal.mvnum traditional_confidence)
      { llm_result with metadata := md2 }
    | .raises _ =>
      let md := ainsert trad_result.metadata "llm_fallback_failed" (MetaVal.mvbool true)
      { trad_result with metadata := md }

/-! ## Association-list lemmas -/

/-- Looking up the key just inserted returns the inserted value. -/
theorem alookup_ainsert_self {α : Type} (d : List (String × α)) (k : String) (v : α) :
    alookup (ainsert d k v) k = some v := by
  induction d with
  | nil => simp [ainsert, alookup]
  | cons hd tl ih =>
    obtain ⟨k0, w⟩ := hd
    by_cases h : k0 = k
    · simp [ainsert, alookup, h]
    · simp [ainsert, alookup, h, ih]

/-- Inserting at one key does not change lookups at another. -/
theorem alookup_ainsert_ne {α : Type} (d : List (String × α)) (k k' : String) (v : α)
    (h : k' ≠ k) : alookup (ainsert d k v) k' = alookup d k' := by
  have hkk : ¬(k = k') := fun hh => h hh.symm
  induction d with
  | nil => simp [ainsert, alookup, hkk]
  | cons hd tl ih =>
    obtain ⟨k0, w⟩ := hd
    by_cases h0 : k0 = k
    · subst h0
      simp [ainsert, alookup, hkk]
    · by_cases h1 : k0 = k'
      · simp [ainsert, alookup, h0, h1, h]
      · simp [ainsert, alookup, h0, h1, ih]

/-- Overwriting an existing key preserves the dict's length. -/
theorem length_ainsert_of_lookup_some {α : Type} (d : List (String × α))
    (k : String) (v v' : α) (h : alookup d k = some v) :
    (ainsert d k v').length = d.length := by
  induction d with
  | nil => simp [alookup] at h
  | cons hd tl ih =>
    obtain ⟨k0, w⟩ := hd
    by_cases h0 : k0 = k
    · simp [ainsert, h0]
    · simp only [alookup, if_neg h0] at h
      simp [ainsert, h0, ih h]

/-- Inserting a fresh key appends the binding at the end. -/
theorem ainsert_of_lookup_none {α : Type} (d : List (String × α))
    (k : String) (v' : α) (h : alookup d k = Option.none) :
    ainsert d k v' = d ++ [(k, v')] := by
  induction d with
  | nil => simp [ainsert]
  | cons hd tl ih =>
    obtain ⟨k0, w⟩ := hd
    by_cases h0 : k0 = k
    · simp [alookup, h0] at h
    · simp only [alookup, if_neg h0] at h
      simp [ainsert, h0, ih h]

/-! ## Concrete fixtures used by counterexamples and witnesses -/

/-- A pipeline configuration with the built-in default schemas and no
external mapping file. -/
def cfg0 : PipelineCfg :=
  { mappings := DEFAULT_FIELD_MAPPINGS,
    mapping_path := "/data/file_mappings/field_mappings.json",
    mapping_path_exists := false }

/-- A concrete fingerprint. -/
def fp0 : Fingerprint :=
  { file_hash := "a1b2", file_size_bytes := 2048, file_mtime := 1700000000 }

/-- A scanned PDF: content-classified as bid tabs, first extraction
succeeds with empty data (triggering OCR escalation), and the re-extraction
on the OCR output raises. -/
def wC3 : FileWorld :=
  { file_name := "scan.pdf", file_path := "/docs/scan.pdf",
    first_page_text := some "Roadway Items  Bidder",
    call1 := { ctor_error := Option.none, behavior := .ok (Value.vdict []),
               text_length := 0, text_pages_with_content := 0 },
    ocr_enabled := true, ocr_available := true,
    ocr_exec := .ok "/tmp/ocr_scan.pdf",
    call2 := { ctor_error := Option.none,
               behavior := .exn "Extraction crashed on OCR output",
               text_length := 0, text_pages_with_content := 0 },
    fingerprint := fp0 }

/-- A bid-tabs PDF whose extraction succeeds cleanly (good text statistics,
contract number and a non-empty bidders list), so its outcome is a plain
success. -/
def wOK : FileWorld :=
  { file_name := "scan.pdf", file_path := "/docs/scan.pdf",
    first_page_text := some "Roadway Items  Bidder",
    call1 := { ctor_error := Option.none,
               behavior := .ok (Value.vdict
                 [("contract_number", Value.vstr "DA00001"),
                  ("bidders", Value.vlist [Value.vdict [("bidder_name", Value.vstr "ACME")]]),
                  ("bid_items", Value.vlist [])]),
               text_length := 200, text_pages_with_content := 1 },
    ocr_enabled := true, ocr_available := true,
    ocr_exec := .ok "/tmp/ocr_scan.pdf",
    call2 := { ctor_error := Option.none, behavior := .exn "never reached",
               text_length := 0, text_pages_with_content := 0 },
    fingerprint := fp0 }

/-- A PDF whose extractor constructor raises, so processing it always ends
in a failed outcome. -/
def wFail : FileWorld :=
  { file_name := "scan.pdf", file_path := "/docs/scan.pdf",
    first_page_text := some "Roadway Items  Bidder",
    call1 := { ctor_error := some "FileNotFoundError: PDF file not found",
               behavior := .ok Value.vnone, text_length := 0,
               text_pages_with_content := 0 },
    ocr_enabled := true, ocr_available := true, ocr_exec := .ok "/tmp/o.pdf",
    call2 := { ctor_error := Option.none, behavior := .ok Value.vnone,
               text_length := 0, text_pages_with_content := 0 },
    fingerprint := fp0 }

/-- A successful traditional result with confidence 1. -/
def tradHigh : HResult :=
  { status := "success", data := some [("contract_number", Value.vstr "DA1")],
    metadata := [] }

/-- A successful traditional result with confidence 0 (its only field is
null). -/
def tradLow : HResult :=
  { status := "success", data := some [("contract_number", Value.vnone)],
    metadata := [] }

/-! ## C6: the OCR tool runs at most once per document -/

/-- C6 (confirmed): for every configuration and every per-file world —
whatever the classifier, extractor, OCR tool and re-extraction do, and even
when the post-OCR re-assessment still reports `needs_ocr = true` — one call
of `Pipeline.process_file` invokes `OCRProcessor.run` at most once. -/
theorem C6_ocr_at_most_once (cfg : PipelineCfg) (w : FileWorld) :
    (Pipeline.process_file cfg w).2 ≤ 1 := by
  unfold Pipeline.process_file
  dsimp only
  split
  · simp
  · split
    · simp
    · split
      · split <;> simp
      · simp

/-! ## C1: per-document error capture in `process_file` -/

/-- C1 counterexample: `process_file` computes the file fingerprint before
its `try` block, so for a missing/unreadable file (fingerprinting raises
and no fingerprint was passed in) the call propagates the exception to its
caller instead of returning a `failed` outcome. -/
theorem C1_counterexample :
    Pipeline.process_file_entry cfg0 wFail Option.none
      (Except.error "FileNotFoundError: PDF file not found")
      = Except.error "FileNotFoundError: PDF file not found" := rfl

/-- A file whose initial extraction succeeds with empty data (so OCR
escalation fires), the OCR tool produces an output, and the extractor
constructor raises on the OCR re-extraction pass. -/
def wC1 : FileWorld :=
  { file_name := "scan.pdf", file_path := "/docs/scan.pdf",
    first_page_text := some "Roadway Items  Bidder",
    call1 := { ctor_error := Option.none, behavior := .ok (Value.vdict []),
               text_length := 0, text_pages_with_content := 0 },
    ocr_enabled := true, ocr_available := true,
    ocr_exec := .ok "/tmp/ocr_scan.pdf",
    call2 := { ctor_error := some "FileNotFoundError: OCR output missing",
               behavior := .ok Value.vnone,
               text_length := 0, text_pages_with_content := 0 },
    fingerprint := fp0 }

/-- The outcome of `wC1`'s initial extraction pass. -/
def r0C1 : Outcome :=
  { file_path := "/docs/scan.pdf", document_type := "bid_tabs",
    status := "success", error := Option.none, data := Value.vdict [],
    text_length := 0, text_pages_with_content := 0 }

/-- The needs-OCR assessment always fires on an outcome whose data is
`None`: the `or \x7b\x7d` coercion yields the empty dict, hence reason
"empty_data". -/
theorem assess_needs_ocr_of_vnone_data (r : Outcome)
    (h : r.data = Value.vnone) : (Pipeline.assess_needs_ocr r).1 = true := by
  unfold Pipeline.assess_needs_ocr
  rw [h]
  dsimp only [Value.truthy]
  split <;> simp_all

/-- `_normalize_contract_number` leaves an outcome with `None` data
unchanged. -/
theorem normalize_contract_number_vnone (r : Outcome) (fn : String)
    (h : r.data = Value.vnone) :
    Pipeline.normalize_contract_number r fn = r := by
  unfold Pipeline.normalize_contract_number
  rw [h]

/-- The finalization tail never changes a non-success status. -/
theorem finalize_status_of_ne_success (r : Outcome) (needs : Bool)
    (reasons : List String) (fp : Fingerprint) (h : r.status ≠ "success") :
    (Pipeline.finalize_status r needs reasons fp).status = r.status := by
  unfold Pipeline.finalize_status
  dsimp only
  repeat' split
  all_goals simp_all

/-- The finalization tail never changes the error field. -/
theorem finalize_status_error (r : Outcome) (needs : Bool)
    (reasons : List String) (fp : Fingerprint) :
    (Pipeline.finalize_status r needs reasons fp).error = r.error := by
  unfold Pipeline.finalize_status
  dsimp only
  repeat' split
  all_goals rfl

/-- `process_file` on the escalation path where OCR re-extraction raised:
the exception is caught by the outer handler into the failed outcome. -/
theorem process_file_ocr_raise (cfg : PipelineCfg) (w : FileWorld)
    (r0 : Outcome) (e : String)
    (hget : DocumentClassifier.get_extractor_class
      (DocumentClassifier.classify w.file_name w.first_page_text) = true)
    (hr0 : Pipeline.run_extraction_aux cfg w.call1
      (DocumentClassifier.classify w.file_name w.first_page_text)
      w.file_name w.file_path = Except.ok r0)
    (hneeds : (Pipeline.assess_needs_ocr
      (Pipeline.normalize_contract_number r0 w.file_name)).1 = true)
    (hatt : Pipeline.attempt_ocr_and_reextract cfg w
      (DocumentClassifier.classify w.file_name w.first_page_text)
      (Pipeline.normalize_contract_number r0 w.file_name) = Except.error e) :
    Pipeline.process_file cfg w = (Pipeline.failed_outcome w e, 1) := by
  unfold Pipeline.process_file
  dsimp only
  rw [if_neg (by simp [hget]), hr0]
  dsimp only
  rw [if_pos hneeds, hatt]

/-- `process_file` on the escalation path where re-extraction returned a
result: the replaced result is normalised, re-assessed and finalised. -/
theorem process_file_ocr_result (cfg : PipelineCfg) (w : FileWorld)
    (r0 r2 : Outcome)
    (hget : DocumentClassifier.get_extractor_class
      (DocumentClassifier.classify w.file_name w.first_page_text) = true)
    (hr0 : Pipeline.run_extraction_aux cfg w.call1
      (DocumentClassifier.classify w.file_name w.first_page_text)
      w.file_name w.file_path = Except.ok r0)
    (hneeds : (Pipeline.assess_needs_ocr
      (Pipeline.normalize_contract_number r0 w.file_name)).1 = true)
    (hatt : Pipeline.attempt_ocr_and_reextract cfg w
      (DocumentClassifier.classify w.file_name w.first_page_text)
      (Pipeline.normalize_contract_number r0 w.file_name) = Except.ok r2) :
    Pipeline.process_file cfg w
      = (Pipeline.finalize_status
          (Pipeline.normalize_contract_number r2 w.file_name)
          (Pipeline.assess_needs_ocr
            (Pipeline.normalize_contract_number r2 w.file_name)).1
          (Pipeline.assess_needs_ocr
            (Pipeline.normalize_contract_number r2 w.file_name)).2
          w.fingerprint, 1) := by
  unfold Pipeline.process_file
  dsimp only
  rw [if_neg (by simp [hget]), hr0]
  dsimp only
  rw [if_pos hneeds, hatt]

/-- When re-extraction replaced the result by a non-success outcome with
`None` data, that status and error stand as the final outcome. -/
theorem process_file_failed_reextract (cfg : PipelineCfg) (w : FileWorld)
    (r0 r2 : Outcome)
    (hget : DocumentClassifier.get_extractor_class
      (DocumentClassifier.classify w.file_name w.first_page_text) = true)
    (hr0 : Pipeline.run_extraction_aux cfg w.call1
      (DocumentClassifier.classify w.file_name w.first_page_text)
      w.file_name w.file_path = Except.ok r0)
    (hneeds : (Pipeline.assess_needs_ocr
      (Pipeline.normalize_contract_number r0 w.file_name)).1 = true)
    (hatt : Pipeline.attempt_ocr_and_reextract cfg w
      (DocumentClassifier.classify w.file_name w.first_page_text)
      (Pipeline.normalize_contract_number r0 w.file_name) = Except.ok r2)
    (hdata2 : r2.data = Value.vnone) (hstat2 : r2.status ≠ "success") :
    (Pipeline.process_file cfg w).1.status = r2.status
    ∧ (Pipeline.process_file cfg w).1.error = r2.error := by
  rw [process_file_ocr_result cfg w r0 r2 hget hr0 hneeds hatt]
  rw [normalize_contract_number_vnone r2 w.file_name hdata2]
  exact ⟨finalize_status_of_ne_success r2 _ _ _ hstat2,
    finalize_status_error r2 _ _ _⟩

/-- When the initial extraction result is non-success with `None` data and
the OCR tool produces no output document, the initial failure stands as
the final outcome. -/
theorem process_file_failed_noocr (cfg : PipelineCfg) (w : FileWorld)
    (r0 : Outcome)
    (hget : DocumentClassifier.get_extractor_class
      (DocumentClassifier.classify w.file_name w.first_page_text) = true)
    (hr0 : Pipeline.run_extraction_aux cfg w.call1
      (DocumentClassifier.classify w.file_name w.first_page_text)
      w.file_name w.file_path = Except.ok r0)
    (hdata : r0.data = Value.vnone) (hstat : r0.status ≠ "success")
    (hnone : (OCRProcessor.run w.ocr_enabled w.ocr_available w.ocr_exec).1
      = Option.none) :
    (Pipeline.process_file cfg w).1.status = r0.status
    ∧ (Pipeline.process_file cfg w).1.error = r0.error := by
  have hnorm := normalize_contract_number_vnone r0 w.file_name hdata
  have hneeds : (Pipeline.assess_needs_ocr
      (Pipeline.normalize_contract_number r0 w.file_name)).1 = true := by
    rw [hnorm]
    exact assess_needs_ocr_of_vnone_data r0 hdata
  have hatt : Pipeline.attempt_ocr_and_reextract cfg w
      (DocumentClassifier.classify w.file_name w.first_page_text)
      (Pipeline.normalize_contract_number r0 w.file_name)
      = Except.ok ({ r0 with ocr := some ((OCRProcessor.run w.ocr_enabled w.ocr_available w.ocr_exec).2) }) := by
    rw [hnorm]
    unfold Pipeline.attempt_ocr_and_reextract
    dsimp only
    rw [hnone]
  have hmain := process_file_failed_reextract cfg w r0
    ({ r0 with ocr := some ((OCRProcessor.run w.ocr_enabled w.ocr_available w.ocr_exec).2) })
    hget hr0 hneeds hatt (by simpa using hdata) (by simpa using hstat)
  simpa using hmain

/-- C1 (corrected): once the fingerprint is available — passed in by the
caller, as `process_directory` does, or computed successfully —
`process_file` returns exactly one outcome and never raises; exceptions
inside the `try` block are captured rather than propagated. In detail:
(1)-(2) `process_file` never raises once fingerprinting succeeded;
(3) an exception from `extract()` is caught by `run_extraction` into a
failed extraction result carrying the message; (4) an extractor-constructor
error on the initial pass yields a failed outcome with the message in
`error`; (5) an extractor-constructor error on the OCR re-extraction pass
likewise yields a failed outcome with that message; (6) an `extract()`
error on the initial pass stands as the final failed outcome with its
message when OCR produces no output document (a successful re-extraction
may instead supersede it); (7) an `extract()` error on the OCR
re-extraction pass yields a final failed outcome with its message.
Errors while computing the fingerprint itself are not captured (see the
counterexample). -/
theorem C1_outcome_capture :
    (∀ (cfg : PipelineCfg) (w : FileWorld) (fp : Fingerprint)
       (comp : Except String Fingerprint),
       (Pipeline.process_file_entry cfg w (some fp) comp).isOk = true)
    ∧ (∀ (cfg : PipelineCfg) (w : FileWorld) (fp : Fingerprint),
       (Pipeline.process_file_entry cfg w Option.none (Except.ok fp)).isOk = true)
    ∧ (∀ (e : String) (tl tp : Nat),
       (BaseExtractor.run_extraction (ExtractBehavior.exn e) tl tp).status = "failed"
       ∧ (BaseExtractor.run_extraction (ExtractBehavior.exn e) tl tp).error = some e)
    ∧ (∀ (cfg : PipelineCfg) (w : FileWorld) (e : String),
       DocumentClassifier.get_extractor_class
         (DocumentClassifier.classify w.file_name w.first_page_text) = true →
       w.call1.ctor_error = some e →
       (Pipeline.process_file cfg w).1.status = "failed"
       ∧ (Pipeline.process_file cfg w).1.error = some e)
    ∧ (∀ (cfg : PipelineCfg) (w : FileWorld) (e : String) (r0 : Outcome),
       DocumentClassifier.get_extractor_class
         (DocumentClassifier.classify w.file_name w.first_page_text) = true →
       Pipeline.run_extraction_aux cfg w.call1
         (DocumentClassifier.classify w.file_name w.first_page_text)
         w.file_name w.file_path = Except.ok r0 →
       (Pipeline.assess_needs_ocr
         (Pipeline.normalize_contract_number r0 w.file_name)).1 = true →
       (OCRProcessor.run w.ocr_enabled w.ocr_available w.ocr_exec).1.isSome = true →
       w.call2.ctor_error = some e →
       (Pipeline.process_file cfg w).1.status = "failed"
       ∧ (Pipeline.process_file cfg w).1.error = some e)
    ∧ (∀ (cfg : PipelineCfg) (w : FileWorld) (e : String),
       DocumentClassifier.get_extractor_class
         (DocumentClassifier.classify w.file_name w.first_page_text) = true →
       w.call1.ctor_error = Option.none →
       w.call1.behavior = ExtractBehavior.exn e →
       (OCRProcessor.run w.ocr_enabled w.ocr_available w.ocr_exec).1 = Option.none →
       (Pipeline.process_file cfg w).1.status = "failed"
       ∧ (Pipeline.process_file cfg w).1.error = some e)
    ∧ (∀ (cfg : PipelineCfg) (w : FileWorld) (e : String) (r0 : Outcome) (p : String),
       DocumentClassifier.get_extractor_class
         (DocumentClassifier.classify w.file_name w.first_page_text) = true →
       Pipeline.run_extraction_aux cfg w.call1
         (DocumentClassifier.classify w.file_name w.first_page_text)
         w.file_name w.file_path = Except.ok r0 →
       (Pipeline.assess_needs_ocr
         (Pipeline.normalize_contract_number r0 w.file_name)).1 = true →
       (OCRProcessor.run w.ocr_enabled w.ocr_available w.ocr_exec).1 = some p →
       w.call2.ctor_error = Option.none →
       w.call2.behavior = ExtractBehavior.exn e →
       (Pipeline.process_file cfg w).1.status = "failed"
       ∧ (Pipeline.process_file cfg w).1.error = some e) := by
  refine ⟨fun cfg w fp comp => rfl, fun cfg w fp => rfl,
    fun e tl tp => ⟨rfl, rfl⟩, fun cfg w e h1 h2 => ?_, ?_, ?_, ?_⟩
  · simp [Pipeline.process_file, h1, Pipeline.run_extraction_aux, h2,
      Pipeline.failed_outcome]
  · intro cfg w e r0 hget hr0 hneeds hsome hctor2
    obtain ⟨p, hp⟩ := Option.isSome_iff_exists.mp hsome
    have hre : Pipeline.run_extraction_aux cfg w.call2
        (DocumentClassifier.classify w.file_name w.first_page_text)
        w.file_name w.file_path = Except.error e := by
      unfold Pipeline.run_extraction_aux
      rw [hctor2]
    have hatt : Pipeline.attempt_ocr_and_reextract cfg w
        (DocumentClassifier.classify w.file_name w.first_page_text)
        (Pipeline.normalize_contract_number r0 w.file_name)
        = Except.error e := by
      unfold Pipeline.attempt_ocr_and_reextract
      dsimp only
      rw [hp]
      dsimp only
      rw [hre]
    rw [process_file_ocr_raise cfg w r0 e hget hr0 hneeds hatt]
    exact ⟨rfl, rfl⟩
  · intro cfg w e hget hctor hbeh hnone
    have hr0 : Pipeline.run_extraction_aux cfg w.call1
        (DocumentClassifier.classify w.file_name w.first_page_text)
        w.file_name w.file_path
        = Except.ok
          { file_path := w.file_path,
            document_type :=
              (DocumentClassifier.classify w.file_name w.first_page_text).value,
            status := "failed", error := some e, data := Value.vnone,
            text_length := w.call1.text_length,
            text_pages_with_content := w.call1.text_pages_with_content } := by
      unfold Pipeline.run_extraction_aux
      rw [hctor]
      dsimp only
      rw [hbeh]
      dsimp only [BaseExtractor.run_extraction]
      rw [if_neg (by simp)]
    exact process_file_failed_noocr cfg w _ hget hr0 rfl (by simp) hnone
  · intro cfg w e r0 p hget hr0 hneeds hp hctor2 hbeh2
    have hre : Pipeline.run_extraction_aux cfg w.call2
        (DocumentClassifier.classify w.file_name w.first_page_text)
        w.file_name w.file_path
        = Except.ok
          { file_path := w.file_path,
            document_type :=
              (DocumentClassifier.classify w.file_name w.first_page_text).value,
            status := "failed", error := some e, data := Value.vnone,
            text_length := w.call2.text_length,
            text_pages_with_content := w.call2.text_pages_with_content } := by
      unfold Pipeline.run_extraction_aux
      rw [hctor2]
      dsimp only
      rw [hbeh2]
      dsimp only [BaseExtractor.run_extraction]
      rw [if_neg (by simp)]
    have hatt : Pipeline.attempt_ocr_and_reextract cfg w
        (DocumentClassifier.classify w.file_name w.first_page_text)
        (Pipeline.normalize_contract_number r0 w.file_name)
        = Except.ok
          ({ file_path := w.file_path,
             document_type :=
               (DocumentClassifier.classify w.file_name w.first_page_text).value,
             status := "failed", error := some e, data := Value.vnone,
             text_length := w.call2.text_length,
             text_pages_with_content := w.call2.text_pages_with_content,
             ocr := some (OCRProcessor.run w.ocr_enabled w.ocr_available w.ocr_exec).2,
             ocr_source_file := some p } : Outcome) := by
      unfold Pipeline.attempt_ocr_and_reextract
      dsimp only
      rw [hp]
      dsimp only
      rw [hre]
    exact process_file_failed_reextract cfg w r0 _ hget hr0 hneeds hatt rfl
      (by simp)

/-- C1 witness: concrete files whose extractor constructor raises — on the
initial pass and on the OCR re-extraction pass — both yield failed outcomes
carrying the message. -/
theorem C1_witness :
    ((Pipeline.process_file cfg0 wFail).1.status = "failed"
      ∧ (Pipeline.process_file cfg0 wFail).1.error
          = some "FileNotFoundError: PDF file not found")
    ∧ ((Pipeline.process_file cfg0 wC1).1.status = "failed"
      ∧ (Pipeline.process_file cfg0 wC1).1.error
          = some "FileNotFoundError: OCR output missing") :=
  ⟨C1_outcome_capture.2.2.2.1 cfg0 wFail
      "FileNotFoundError: PDF file not found" rfl rfl,
   C1_outcome_capture.2.2.2.2.1 cfg0 wC1
      "FileNotFoundError: OCR output missing" r0C1 rfl rfl rfl rfl rfl⟩

/-! ## C3: status transitions during one document's processing -/

/-- C3 counterexample: a document whose initial extraction returns status
"success" (empty data, so OCR escalation fires) but whose re-extraction on
the OCR output fails ends with final status "failed" — the OCR
re-extraction step, listed by the claim, replaced a success with a
failure. -/
theorem C3_counterexample :
    (Pipeline.run_extraction_aux cfg0 wC3.call1
        (DocumentClassifier.classify wC3.file_name wC3.first_page_text)
        wC3.file_name wC3.file_path).map Outcome.status = Except.ok "success"
    ∧ (Pipeline.process_file cfg0 wC3).1.status = "failed" := ⟨rfl, rfl⟩

/-- C3 (corrected): the finalization steps (needs-OCR downgrade and
partial-reason assessment) only ever transition success→partial — they
never produce "failed" from a success and leave any non-success status
(in particular "partial" and "failed") unchanged. The OCR re-extraction
step, by contrast, replaces the outcome wholesale and can turn an initial
success into a failed outcome (see the counterexample). -/
theorem C3_finalize_transitions (r : Outcome) (needs : Bool)
    (reasons : List String) (fp : Fingerprint) :
    (r.status = "success" →
      (Pipeline.finalize_status r needs reasons fp).status = "success"
      ∨ (Pipeline.finalize_status r needs reasons fp).status = "partial")
    ∧ (r.status ≠ "success" →
      (Pipeline.finalize_status r needs reasons fp).status = r.status) := by
  unfold Pipeline.finalize_status
  constructor
  · intro h
    dsimp only
    repeat' split
    all_goals simp_all
  · intro h
    dsimp only
    repeat' split
    all_goals simp_all

/-- C3 witness: a concrete success outcome that still needs OCR is
finalized to success-or-partial (in fact partial). -/
theorem C3_witness :
    (Pipeline.finalize_status
        { status := "success", data := Value.vdict [], file_path := "/docs/scan.pdf" }
        true ["no_text_extracted"] fp0).status = "success"
    ∨ (Pipeline.finalize_status
        { status := "success", data := Value.vdict [], file_path := "/docs/scan.pdf" }
        true ["no_text_extracted"] fp0).status = "partial" :=
  (C3_finalize_transitions
    { status := "success", data := Value.vdict [], file_path := "/docs/scan.pdf" }
    true ["no_text_extracted"] fp0).1 rfl

/-! ## C4: behaviour of the mapping layer when no schema exists -/

/-- C4 (code bug): for a document type with no schema
(`"bid_summary"` has no entry in `DEFAULT_FIELD_MAPPINGS`), the resolver
still returns a non-empty mapping dict (its four provenance keys), so
`apply_mapping`'s `if not mapping` pass-through guard never fires: the raw
data is replaced by the empty dict and provenance says `applied = true`,
although the claim (and the spec) require the input back unchanged with
`applied = false`. -/
theorem C4_missing_schema_eval :
    (apply_mapping (Value.vdict [("contract_number", Value.vstr "DA00573")])
      (MappingResolver.resolve DEFAULT_FIELD_MAPPINGS false
        "/data/file_mappings/field_mappings.json" "bid_summary"
        "DA00573 Bid Summary.pdf")).1 = Value.vdict []
    ∧ (apply_mapping (Value.vdict [("contract_number", Value.vstr "DA00573")])
      (MappingResolver.resolve DEFAULT_FIELD_MAPPINGS false
        "/data/file_mappings/field_mappings.json" "bid_summary"
        "DA00573 Bid Summary.pdf")).2.applied = true
    ∧ alookup DEFAULT_FIELD_MAPPINGS "bid_summary" = Option.none :=
  ⟨rfl, rfl, rfl⟩

/-! ## C5: metadata recorded by the hybrid confidence fallback -/

/-- An LLM fallback result used by witnesses. -/
def llmR : HResult :=
  { status := "success", data := some [("contract_number", Value.vstr "DA2")],
    metadata := [] }

/-- C5 counterexample: two hybrid invocations violating the claim — when
the traditional result is accepted, its metadata has no
`traditional_confidence` key (only `confidence`), and when the LLM
fallback raises, the returned metadata has no `method_used` key at all. -/
theorem C5_counterexample :
    alookup (HybridExtractor.extract tradHigh (1/2) (LLMCall.raises "no key")).metadata
      "traditional_confidence" = Option.none
    ∧ alookup (HybridExtractor.extract tradLow (1/2) (LLMCall.raises "no key")).metadata
      "method_used" = Option.none := by
  constructor
  · have hs : BaseExtractor.calculate_confidence_score tradHigh.data = 1 := by
      norm_num [tradHigh, BaseExtractor.calculate_confidence_score, conf_filled,
        List.filter, show (("DA1" : String) == "") = false from rfl]
    simp only [HybridExtractor.extract, hs]
    norm_num [tradHigh, alookup, ainsert]
    decide
  · have hs : BaseExtractor.calculate_confidence_score tradLow.data = 0 := by
      norm_num [tradLow, BaseExtractor.calculate_confidence_score, conf_filled,
        List.filter]
    simp only [HybridExtractor.extract, hs]
    norm_num [tradLow, alookup, ainsert]
    decide

/-- C5 (corrected): what `HybridExtractor.extract` actually records — the
accepted-traditional outcome records `method_used = "traditional"` together
with `confidence` (not `traditional_confidence`); the successful LLM
fallback records `method_used = "llm_fallback"` and
`traditional_confidence`; when the LLM fallback raises, only
`llm_fallback_failed = true` is added and neither `method_used` nor
`traditional_confidence` is recorded. -/
theorem C5_metadata_recording (trad : HResult) (thr : ℚ) (llm : LLMCall) :
    (trad.status = "success" →
     BaseExtractor.calculate_confidence_score trad.data ≥ thr →
      alookup (HybridExtractor.extract trad thr llm).metadata "method_used"
        = some (MetaVal.mvstr "traditional")
      ∧ alookup (HybridExtractor.extract trad thr llm).metadata "confidence"
        = some (MetaVal.mvnum (BaseExtractor.calculate_confidence_score trad.data))
      ∧ alookup (HybridExtractor.extract trad thr llm).metadata "traditional_confidence"
        = alookup trad.metadata "traditional_confidence")
    ∧ (∀ r, llm = LLMCall.returns r →
       ¬(trad.status = "success"
          ∧ BaseExtractor.calculate_confidence_score trad.data ≥ thr) →
      alookup (HybridExtractor.extract trad thr llm).metadata "method_used"
        = some (MetaVal.mvstr "llm_fallback")
      ∧ alookup (HybridExtractor.extract trad thr llm).metadata "traditional_confidence"
        = some (MetaVal.mvnum (if trad.status = "success"
            then BaseExtractor.calculate_confidence_score trad.data else 0)))
    ∧ (∀ e, llm = LLMCall.raises e →
       ¬(trad.status = "success"
          ∧ BaseExtractor.calculate_confidence_score trad.data ≥ thr) →
      alookup (HybridExtractor.extract trad thr llm).metadata "llm_fallback_failed"
        = some (MetaVal.mvbool true)
      ∧ alookup (HybridExtractor.extract trad thr llm).metadata "method_used"
        = alookup trad.metadata "method_used"
      ∧ alookup (HybridExtractor.extract trad thr llm).metadata "traditional_confidence"
        = alookup trad.metadata "traditional_confidence") := by
  refine ⟨fun h1 h2 => ?_, fun r hr hneg => ?_, fun e he hneg => ?_⟩
  · unfold HybridExtractor.extract
    rw [if_pos ⟨h1, h2⟩]
    dsimp only
    refine ⟨alookup_ainsert_self _ _ _, ?_, ?_⟩
    · rw [alookup_ainsert_ne _ _ _ _ (by decide)]
      exact alookup_ainsert_self _ _ _
    · rw [alookup_ainsert_ne _ _ _ _ (by decide),
        alookup_ainsert_ne _ _ _ _ (by decide)]
  · subst hr
    unfold HybridExtractor.extract
    rw [if_neg hneg]
    dsimp only
    refine ⟨?_, alookup_ainsert_self _ _ _⟩
    rw [alookup_ainsert_ne _ _ _ _ (by decide)]
    exact alookup_ainsert_self _ _ _
  · subst he
    unfold HybridExtractor.extract
    rw [if_neg hneg]
    dsimp only
    refine ⟨alookup_ainsert_self _ _ _, ?_, ?_⟩
    · rw [alookup_ainsert_ne _ _ _ _ (by decide)]
    · rw [alookup_ainsert_ne _ _ _ _ (by decide)]

/-- C5 witness: a concrete low-confidence traditional result falling back
to a successful LLM call records both keys. -/
theorem C5_witness :
    alookup (HybridExtractor.extract tradLow (1/2) (LLMCall.returns llmR)).metadata
      "method_used" = some (MetaVal.mvstr "llm_fallback")
    ∧ alookup (HybridExtractor.extract tradLow (1/2) (LLMCall.returns llmR)).metadata
      "traditional_confidence" = some (MetaVal.mvnum (if tradLow.status = "success"
          then BaseExtractor.calculate_confidence_score tradLow.data else 0)) :=
  (C5_metadata_recording tradLow (1/2) (LLMCall.returns llmR)).2.1 llmR rfl
    (by
      have hs : BaseExtractor.calculate_confidence_score tradLow.data = 0 := by
        norm_num [tradLow, BaseExtractor.calculate_confidence_score, conf_filled,
          List.filter]
      rw [hs]
      norm_num)

/-! ## C10: empty collections — confidence score versus needs-OCR -/

/-- C10 (confirmed): `calculate_confidence_score` counts every value other
than `None` and the empty string as filled — an empty list in particular —
so `{"bidders": []}` scores confidence 1; the needs-OCR assessment counts
the same empty list as unfilled and reports reason "empty_data" for the
same dictionary. -/
theorem C10_filled_asymmetry :
    (∀ v : Value, v ≠ Value.vnone → v ≠ Value.vstr "" → conf_filled v = true)
    ∧ BaseExtractor.calculate_confidence_score (some [("bidders", Value.vlist [])]) = 1
    ∧ ocr_filled (Value.vlist []) = false
    ∧ Pipeline.assess_needs_ocr
        { status := "success", data := Value.vdict [("bidders", Value.vlist [])],
          text_length := 200, text_pages_with_content := 1 }
        = (true, ["empty_data"]) := by
  refine ⟨?_, ?_, rfl, rfl⟩
  · intro v h1 h2
    cases v with
    | vnone => exact absurd rfl h1
    | vstr s =>
      have hs : s ≠ "" := fun heq => h2 (by rw [heq])
      simp [conf_filled, hs]
    | vnum n => rfl
    | vbool b => rfl
    | vlist l => rfl
    | vdict d => rfl
  · norm_num [BaseExtractor.calculate_confidence_score, conf_filled, List.filter]

/-- C10 witness: the empty list itself is counted as filled by the
confidence score. -/
theorem C10_witness : conf_filled (Value.vlist []) = true :=
  C10_filled_asymmetry.1 (Value.vlist []) (fun h => Value.noConfusion h)
    (fun h => Value.noConfusion h)

/-! ## C8: monotonicity of the confidence score -/

/-- Overwriting an entry with a filled value never lowers the filled-field
count. -/
theorem filter_length_ainsert_ge (d : Dict) (k : String) (v v' : Value)
    (hv : alookup d k = some v) (hf : conf_filled v' = true) :
    (d.filter fun p => conf_filled p.2).length
      ≤ ((ainsert d k v').filter fun p => conf_filled p.2).length := by
  induction d with
  | nil => simp [alookup] at hv
  | cons hd tl ih =>
    obtain ⟨k0, w⟩ := hd
    by_cases h0 : k0 = k
    · subst h0
      simp only [ainsert, if_pos rfl, List.filter_cons, hf]
      by_cases hw : conf_filled w = true <;> simp [hw, hf]
    · simp only [alookup, if_neg h0] at hv
      simp only [ainsert, if_neg h0, List.filter_cons]
      by_cases hw : conf_filled w = true
      · simp only [hw, if_pos rfl, List.length_cons]
        exact Nat.succ_le_succ (ih hv)
      · simp only [hw]
        simp only [Bool.false_eq_true, if_false]
        exact ih hv

/-- C8 (confirmed): the confidence score is monotone under filling fields —
changing one field's value from null or the empty string to a filled value,
or adding one new filled field, never decreases
`calculate_confidence_score`. -/
theorem C8_confidence_monotone :
    (∀ (d : Dict) (k : String) (v v' : Value),
      alookup d k = some v → (v = Value.vnone ∨ v = Value.vstr "") →
      conf_filled v' = true →
      BaseExtractor.calculate_confidence_score (some d)
        ≤ BaseExtractor.calculate_confidence_score (some (ainsert d k v')))
    ∧ (∀ (d : Dict) (k : String) (v' : Value),
      alookup d k = Option.none → conf_filled v' = true →
      BaseExtractor.calculate_confidence_score (some d)
        ≤ BaseExtractor.calculate_confidence_score (some (ainsert d k v'))) := by
  constructor
  · intro d k v v' hv _hempty hf
    have hlen : (ainsert d k v').length = d.length :=
      length_ainsert_of_lookup_some d k v v' hv
    have hcount := filter_length_ainsert_ge d k v v' hv hf
    have hne : d ≠ [] := by
      intro h
      subst h
      simp [alookup] at hv
    have hne2 : ainsert d k v' ≠ [] := by
      intro h
      have := congrArg List.length h
      rw [hlen] at this
      exact hne (List.length_eq_zero.mp this)
    have hpos : (0 : ℚ) < (d.length : ℚ) := by
      exact_mod_cast List.length_pos.mpr hne
    unfold BaseExtractor.calculate_confidence_score
    dsimp only
    rw [if_neg (by simp [List.isEmpty_iff, hne]),
      if_neg (by simp [List.isEmpty_iff, hne2]), hlen]
    rw [div_le_div_iff_of_pos_right hpos]
    exact_mod_cast hcount
  · intro d k v' hnone hf
    have happ : ainsert d k v' = d ++ [(k, v')] :=
      ainsert_of_lookup_none d k v' hnone
    unfold BaseExtractor.calculate_confidence_score
    dsimp only
    rw [happ]
    rcases eq_or_ne d [] with hd | hd
    · subst hd
      simp [List.filter_cons, hf]
    · have hF : ((d.filter fun p => conf_filled p.2).length : ℚ) ≤ (d.length : ℚ) := by
        exact_mod_cast List.length_filter_le _ d
      have hpos : (0 : ℚ) < (d.length : ℚ) := by
        exact_mod_cast List.length_pos.mpr hd
      rw [if_neg (by simp [List.isEmpty_iff, hd]),
        if_neg (by simp [List.isEmpty_iff])]
      rw [List.filter_append, List.length_append, List.length_append]
      simp only [List.filter_cons, hf, if_pos rfl, List.filter_nil, List.length_cons,
        List.length_nil, List.length_singleton]
      rw [div_le_div_iff₀ hpos (by positivity)]
      have h1 : ((([(k, v')] : Dict).length : ℚ)) = 1 := by norm_num
      push_cast
      push_cast at h1
      nlinarith [hF, hpos, h1]

/-- C8 witness: filling the single null field of `{"a": None}` raises the
score from 0 to 1. -/
theorem C8_witness :
    BaseExtractor.calculate_confidence_score (some [("a", Value.vnone)])
      ≤ BaseExtractor.calculate_confidence_score
          (some (ainsert [("a", Value.vnone)] "a" (Value.vstr "x"))) :=
  C8_confidence_monotone.1 [("a", Value.vnone)] "a" Value.vnone (Value.vstr "x")
    rfl (Or.inl rfl) rfl

/-! ## C7: canonical field wins over alias in mapping normalization -/

/-- The copy-fields loop preserves an accumulator entry that agrees with
the data. -/
theorem alookup_map_fields_keep (fields : List String) (data : Dict)
    (mapped : Dict) (f : String) (v : Value) (hm : alookup mapped f = some v)
    (hd : alookup data f = some v) :
    alookup (map_fields fields data mapped) f = some v := by
  induction fields generalizing mapped with
  | nil => simpa [map_fields] using hm
  | cons g rest ih =>
    unfold map_fields
    cases hg : alookup data g with
    | none => exact ih mapped hm
    | some w =>
      apply ih
      by_cases hgf : g = f
      · subst hgf
        rw [hd] at hg
        injection hg with hw
        subst hw
        exact alookup_ainsert_self mapped g v
      · rw [alookup_ainsert_ne mapped g f w (fun h => hgf h.symm)]
        exact hm

/-- The copy-fields loop installs each canonical field present in the
data. -/
theorem alookup_map_fields_mem (fields : List String) (data : Dict)
    (mapped : Dict) (f : String) (v : Value) (hf : f ∈ fields)
    (hd : alookup data f = some v) :
    alookup (map_fields fields data mapped) f = some v := by
  induction fields generalizing mapped with
  | nil => cases hf
  | cons g rest ih =>
    unfold map_fields
    by_cases hgf : g = f
    · subst hgf
      rw [hd]
      exact alookup_map_fields_keep rest data _ g v
        (alookup_ainsert_self mapped g v) hd
    · have hf' : f ∈ rest := by
        cases hf with
        | head => exact absurd rfl hgf
        | tail _ h => exact h
      cases hg : alookup data g with
      | none => exact ih mapped hf'
      | some w => exact ih (ainsert mapped g w) hf'

/-- The alias loop never overwrites an already-populated entry. -/
theorem alookup_apply_aliases_keep (aliases : List (String × String))
    (fields : List String) (data : Dict) (mapped : Dict) (f : String)
    (v : Value) (hm : alookup mapped f = some v) :
    alookup (apply_aliases aliases fields data mapped) f = some v := by
  induction aliases generalizing mapped with
  | nil => simpa [apply_aliases] using hm
  | cons p rest ih =>
    obtain ⟨al, target⟩ := p
    unfold apply_aliases
    dsimp only
    apply ih
    by_cases hc : fields.contains target = true
    · rw [if_pos hc]
      cases hda : alookup data al with
      | none => exact hm
      | some w =>
        cases hmt : alookup mapped target with
        | none =>
          have htf : f ≠ target := by
            intro h
            rw [h, hmt] at hm
            cases hm
          rw [alookup_ainsert_ne mapped target f w htf]
          exact hm
        | some u => exact hm
    · rw [if_neg hc]
      exact hm

/-- The list-fields loop preserves entries whose key is not a list
field. -/
theorem alookup_apply_list_fields_keep (lfs : List (String × ItemMapping))
    (data : Dict) (mapped : Dict) (f : String) (v : Value)
    (hnot : f ∉ lfs.map Prod.fst) (hm : alookup mapped f = some v) :
    alookup (apply_list_fields lfs data mapped) f = some v := by
  induction lfs generalizing mapped with
  | nil => simpa [apply_list_fields] using hm
  | cons p rest ih =>
    obtain ⟨name, im⟩ := p
    have hne : f ≠ name := by
      intro h
      exact hnot (by simp [h])
    have hnot' : f ∉ rest.map Prod.fst := by
      intro h
      exact hnot (by simp [h])
    unfold apply_list_fields
    dsimp only
    refine ih _ hnot' ?_
    cases hdn : (alookup data name).getD (Value.vlist []) with
    | vlist items =>
      rw [alookup_ainsert_ne mapped name f _ hne]
      exact hm
    | vnone => exact hm
    | vstr s => exact hm
    | vnum n => exact hm
    | vbool b => exact hm
    | vdict dd => exact hm

/-- The list-fields loop (with distinct list-field names) replaces a list
field whose raw value is a list by its elementwise-mapped version — sourced
from the canonical key. -/
theorem alookup_apply_list_fields_mem (lfs : List (String × ItemMapping))
    (data : Dict) (mapped : Dict) (f : String) (im : ItemMapping)
    (items : List Value) (hnodup : (lfs.map Prod.fst).Nodup)
    (hmem : (f, im) ∈ lfs) (hd : alookup data f = some (Value.vlist items)) :
    alookup (apply_list_fields lfs data mapped) f
      = some (Value.vlist (map_items items im)) := by
  induction lfs generalizing mapped with
  | nil => cases hmem
  | cons p rest ih =>
    obtain ⟨name, im0⟩ := p
    rcases List.mem_cons.mp hmem with heq | hmem'
    · cases heq
      unfold apply_list_fields
      dsimp only
      rw [hd]
      dsimp only [Option.getD]
      have hnot : f ∉ rest.map Prod.fst := by
        simp only [List.map_cons, List.nodup_cons] at hnodup
        exact hnodup.1
      exact alookup_apply_list_fields_keep rest data _ f _ hnot
        (alookup_ainsert_self mapped f _)
    · have hnodup' : (rest.map Prod.fst).Nodup := by
        simp only [List.map_cons, List.nodup_cons] at hnodup
        exact hnodup.2
      unfold apply_list_fields
      dsimp only
      exact ih _ hnodup' hmem'

/-- Alias priority inside one nested list element. -/
theorem alookup_apply_item_mapping_mem (item : Dict) (im : ItemMapping)
    (f : String) (v : Value) (hf : f ∈ im.fields)
    (hd : alookup item f = some v) :
    alookup (apply_item_mapping item im) f = some v :=
  alookup_apply_aliases_keep im.aliases im.fields item _ f v
    (alookup_map_fields_mem im.fields item [] f v hf hd)

/-- C7 (confirmed): when a canonical field is present in the raw input, the
mapped output keeps the canonical value regardless of any alias — exactly
so for scalar (non-list-field) canonical fields; for a canonical list field
the output is the elementwise mapping of the canonical value (the alias is
never read); and the same canonical-over-alias priority holds inside every
element of a nested list field. -/
theorem C7_canonical_priority :
    (∀ (d : Dict) (m : Mapping) (f : String) (v : Value),
      m ≠ [] → f ∈ mapping_fields m → alookup d f = some v →
      f ∉ (mapping_list_fields m).map Prod.fst →
      (apply_mapping (Value.vdict d) m).1 = Value.vdict (apply_mapping_dict d m)
      ∧ alookup (apply_mapping_dict d m) f = some v)
    ∧ (∀ (d : Dict) (m : Mapping) (f : String) (im : ItemMapping)
        (items : List Value),
      f ∈ mapping_fields m → alookup d f = some (Value.vlist items) →
      ((mapping_list_fields m).map Prod.fst).Nodup →
      (f, im) ∈ mapping_list_fields m →
      alookup (apply_mapping_dict d m) f
        = some (Value.vlist (map_items items im)))
    ∧ (∀ (item : Dict) (im : ItemMapping) (f : String) (v : Value),
      f ∈ im.fields → alookup item f = some v →
      alookup (apply_item_mapping item im) f = some v) := by
  refine ⟨fun d m f v hm hf hd hnot => ⟨?_, ?_⟩,
    fun d m f im items _hf hd hnodup hmem => ?_,
    fun item im f v hf hd => alookup_apply_item_mapping_mem item im f v hf hd⟩
  · unfold apply_mapping
    dsimp only
    rw [if_neg (by simp [List.isEmpty_iff, hm])]
  · unfold apply_mapping_dict
    exact alookup_apply_list_fields_keep _ d _ f v hnot
      (alookup_apply_aliases_keep _ _ d _ f v
        (alookup_map_fields_mem _ d [] f v hf hd))
  · unfold apply_mapping_dict
    exact alookup_apply_list_fields_mem _ d _ f im items hnodup hmem hd

/-- A schema with an alias pointing at a canonical field, for the C7
witness. -/
def mC7 : Mapping :=
  [("fields", .mfields ["contract_number"]),
   ("aliases", .maliases [("contract", "contract_number")])]

/-- C7 witness: with both the canonical field and its alias present, the
canonical value survives mapping. -/
theorem C7_witness :
    alookup (apply_mapping_dict
      [("contract_number", Value.vstr "DA1"), ("contract", Value.vstr "DA2")] mC7)
      "contract_number" = some (Value.vstr "DA1") :=
  (C7_canonical_priority.1
      [("contract_number", Value.vstr "DA1"), ("contract", Value.vstr "DA2")]
      mC7 "contract_number" (Value.vstr "DA1")
      (by simp [mC7]) (by simp [mapping_fields, mC7, alookup]) rfl
      (by simp [mapping_list_fields, mC7, alookup])).2

/-! ## C2 and C9: incremental runs, skip cache, and state updates -/

/-- A run never touches state entries for paths outside its file list. -/
theorem process_directory_state_lookup (cfg : PipelineCfg) (inc : Bool)
    (files : List FileWorld) (st : List (String × Fingerprint)) (p : String)
    (hp : p ∉ files.map FileWorld.file_path) :
    alookup (Pipeline.process_directory cfg inc files st).2 p = alookup st p := by
  induction files generalizing st with
  | nil => rfl
  | cons w rest ih =>
    have hpw : p ≠ w.file_path := by
      intro h
      exact hp (by simp [h])
    have hp' : p ∉ rest.map FileWorld.file_path := by
      intro h
      exact hp (by simp [h])
    unfold Pipeline.process_directory
    dsimp only
    split
    · exact ih st hp'
    · rw [ih _ hp']
      split
      · rw [alookup_ainsert_ne st w.file_path p _ hpw]
      · rfl

/-- `_is_unchanged` only depends on the cached entry for the path. -/
theorem is_unchanged_congr (st st' : List (String × Fingerprint)) (p : String)
    (fp : Fingerprint) (h : alookup st' p = alookup st p) :
    Pipeline.is_unchanged st' p fp = Pipeline.is_unchanged st p fp := by
  unfold Pipeline.is_unchanged
  rw [h]

/-- A path cached with exactly this fingerprint is unchanged. -/
theorem is_unchanged_of_lookup_self (st : List (String × Fingerprint))
    (p : String) (fp : Fingerprint) (h : alookup st p = some fp) :
    Pipeline.is_unchanged st p fp = true := by
  unfold Pipeline.is_unchanged
  rw [h]
  simp

/-- One unfolding of the loop: the skip branch. -/
theorem process_directory_cons_skip (cfg : PipelineCfg) (inc : Bool)
    (w : FileWorld) (rest : List FileWorld) (st : List (String × Fingerprint))
    (h : inc = true ∧ Pipeline.is_unchanged st w.file_path w.fingerprint = true) :
    Pipeline.process_directory cfg inc (w :: rest) st
      = (Pipeline.build_skip_result w
          :: (Pipeline.process_directory cfg inc rest st).1,
         (Pipeline.process_directory cfg inc rest st).2) := by
  conv_lhs => unfold Pipeline.process_directory
  rw [if_pos h]

/-- One unfolding of the loop: the process branch, with the incremental
state updated only for a success outcome. -/
theorem process_directory_cons_proc (cfg : PipelineCfg) (inc : Bool)
    (w : FileWorld) (rest : List FileWorld) (st : List (String × Fingerprint))
    (h : ¬(inc = true ∧ Pipeline.is_unchanged st w.file_path w.fingerprint = true)) :
    Pipeline.process_directory cfg inc (w :: rest) st
      = ((Pipeline.process_file cfg w).1
          :: (Pipeline.process_directory cfg inc rest
            (if inc = true ∧ ((Pipeline.process_file cfg w).1).status = "success"
             then ainsert st w.file_path w.fingerprint else st)).1,
         (Pipeline.process_directory cfg inc rest
            (if inc = true ∧ ((Pipeline.process_file cfg w).1).status = "success"
             then ainsert st w.file_path w.fingerprint else st)).2) := by
  conv_lhs => unfold Pipeline.process_directory
  rw [if_neg h]

/-- C2 counterexample: a file whose processing fails in the first
incremental run has an unchanged fingerprint across both runs (it is the
same file), yet the second run over the resulting state reprocesses it —
its outcome is "failed", not "skipped", and it is counted among the
non-skipped documents. -/
theorem C2_counterexample :
    (Pipeline.process_directory cfg0 true [wFail]
        (Pipeline.process_directory cfg0 true [wFail] []).2).1.map Outcome.status
      = ["failed"]
    ∧ count_non_skipped (Pipeline.process_directory cfg0 true [wFail]
        (Pipeline.process_directory cfg0 true [wFail] []).2).1 = 1 := ⟨rfl, rfl⟩

/-- C2 (corrected): if the first incremental run's outcome for the file was
"success" (or the file was already cached as unchanged when the first run
started), then the second incremental run over the resulting state skips
the unchanged file: its outcome has status "skipped" with skip reason
"unchanged", and the run's non-skipped document count excludes it. A file
whose first-run outcome was partial or failed is not cached and is
reprocessed instead (see the counterexample). -/
theorem C2_skip_unchanged (cfg : PipelineCfg) (f : FileWorld)
    (rest1 rest2 : List FileWorld) (st0 : List (String × Fingerprint))
    (hnot : f.file_path ∉ rest1.map FileWorld.file_path)
    (hok : (Pipeline.process_directory cfg true (f :: rest1) st0).1.head?.map Outcome.status
        = some "success"
      ∨ Pipeline.is_unchanged st0 f.file_path f.fingerprint = true) :
    (Pipeline.process_directory cfg true (f :: rest2)
        (Pipeline.process_directory cfg true (f :: rest1) st0).2).1.head?.map Outcome.status
      = some "skipped"
    ∧ (Pipeline.process_directory cfg true (f :: rest2)
        (Pipeline.process_directory cfg true (f :: rest1) st0).2).1.head?.map Outcome.skip_reason
      = some (some "unchanged")
    ∧ count_non_skipped (Pipeline.process_directory cfg true (f :: rest2)
        (Pipeline.process_directory cfg true (f :: rest1) st0).2).1
      = count_non_skipped (Pipeline.process_directory cfg true rest2
        (Pipeline.process_directory cfg true (f :: rest1) st0).2).1 := by
  have hunch : Pipeline.is_unchanged
      (Pipeline.process_directory cfg true (f :: rest1) st0).2
      f.file_path f.fingerprint = true := by
    by_cases hu : Pipeline.is_unchanged st0 f.file_path f.fingerprint = true
    · have hlook : alookup (Pipeline.process_directory cfg true (f :: rest1) st0).2
          f.file_path = alookup st0 f.file_path := by
        rw [process_directory_cons_skip cfg true f rest1 st0 ⟨rfl, hu⟩]
        exact process_directory_state_lookup cfg true rest1 st0 f.file_path hnot
      rw [is_unchanged_congr st0 _ f.file_path f.fingerprint hlook]
      exact hu
    · rcases hok with hs | hu'
      · have hcons := process_directory_cons_proc cfg true f rest1 st0 (by simp [hu])
        rw [hcons] at hs
        simp only [List.head?_cons, Option.map_some', Option.some.injEq] at hs
        have hlook : alookup (Pipeline.process_directory cfg true (f :: rest1) st0).2
            f.file_path = some f.fingerprint := by
          rw [hcons]
          dsimp only
          rw [if_pos ⟨rfl, hs⟩]
          rw [process_directory_state_lookup cfg true rest1 _ f.file_path hnot]
          exact alookup_ainsert_self st0 f.file_path f.fingerprint
        exact is_unchanged_of_lookup_self _ f.file_path f.fingerprint hlook
      · exact absurd hu' hu
  rw [process_directory_cons_skip cfg true f rest2 _ ⟨rfl, hunch⟩]
  refine ⟨rfl, rfl, ?_⟩
  unfold count_non_skipped
  simp [Pipeline.build_skip_result, List.filter_cons]

/-- C2 witness: a concrete successful first run makes the second run skip
the unchanged file. -/
theorem C2_witness :
    (Pipeline.process_directory cfg0 true [wOK]
        (Pipeline.process_directory cfg0 true [wOK] []).2).1.head?.map Outcome.status
      = some "skipped" :=
  (C2_skip_unchanged cfg0 wOK [] [] [] (by simp) (Or.inl rfl)).1

/-- C9 (confirmed): in incremental mode the fingerprint cache entry for a
file's path is updated only when its outcome is "success": the skip branch
leaves the state untouched, a non-success outcome (partial, failed, or
skipped) leaves the cached entry for the path unchanged — so the next
incremental run with the same fingerprint processes the file again instead
of skipping it — and a success outcome stores the file's fingerprint. -/
theorem C9_state_update_only_on_success (cfg : PipelineCfg) (f : FileWorld)
    (rest : List FileWorld) (st0 : List (String × Fingerprint))
    (hnot : f.file_path ∉ rest.map FileWorld.file_path) :
    (Pipeline.is_unchanged st0 f.file_path f.fingerprint = true →
      alookup (Pipeline.process_directory cfg true (f :: rest) st0).2 f.file_path
        = alookup st0 f.file_path)
    ∧ (Pipeline.is_unchanged st0 f.file_path f.fingerprint = false →
       (Pipeline.process_file cfg f).1.status ≠ "success" →
        alookup (Pipeline.process_directory cfg true (f :: rest) st0).2 f.file_path
          = alookup st0 f.file_path
        ∧ ∀ rest2, (Pipeline.process_directory cfg true (f :: rest2)
            (Pipeline.process_directory cfg true (f :: rest) st0).2).1.head?
            = some (Pipeline.process_file cfg f).1)
    ∧ (Pipeline.is_unchanged st0 f.file_path f.fingerprint = false →
       (Pipeline.process_file cfg f).1.status = "success" →
        alookup (Pipeline.process_directory cfg true (f :: rest) st0).2 f.file_path
          = some f.fingerprint) := by
  refine ⟨fun hu => ?_, fun hu hns => ?_, fun hu hs => ?_⟩
  · rw [process_directory_cons_skip cfg true f rest st0 ⟨rfl, hu⟩]
    exact process_directory_state_lookup cfg true rest st0 f.file_path hnot
  · have hcons := process_directory_cons_proc cfg true f rest st0 (by simp [hu])
    have hlook : alookup (Pipeline.process_directory cfg true (f :: rest) st0).2
        f.file_path = alookup st0 f.file_path := by
      rw [hcons]
      dsimp only
      rw [if_neg (by simp [hns])]
      exact process_directory_state_lookup cfg true rest st0 f.file_path hnot
    refine ⟨hlook, fun rest2 => ?_⟩
    have hu2 : Pipeline.is_unchanged
        (Pipeline.process_directory cfg true (f :: rest) st0).2
        f.file_path f.fingerprint = false := by
      rw [is_unchanged_congr st0 _ f.file_path f.fingerprint hlook]
      exact hu
    rw [process_directory_cons_proc cfg true f rest2 _ (by simp [hu2])]
    rfl
  · rw [process_directory_cons_proc cfg true f rest st0 (by simp [hu])]
    dsimp only
    rw [if_pos ⟨rfl, hs⟩]
    rw [process_directory_state_lookup cfg true rest _ f.file_path hnot]
    exact alookup_ainsert_self st0 f.file_path f.fingerprint

/-- C9 witness: a concrete failed run leaves the (empty) cache entry for
the file's path unchanged. -/
theorem C9_witness :
    alookup (Pipeline.process_directory cfg0 true [wFail] []).2 wFail.file_path
      = alookup ([] : List (String × Fingerprint)) wFail.file_path :=
  ((C9_state_update_only_on_success cfg0 wFail [] [] (by simp)).2.1 rfl
    (by
      rw [show (Pipeline.process_file cfg0 wFail).1.status = "failed" from rfl]
      decide)).1
